import Mathlib

set_option maxRecDepth 8000

/-!
Verification of the COVID-19 dashboard pipeline (`Covid-19 Data Analysis.py`).

The Python program is a single class `CovidDashboard` with a fetch → process →
present pipeline.  This file shallowly embeds the pure content of its methods:

* country rows and the pandas `sort_values('cases', ascending=False).head(10)`
  computation of `process_data` (lines 57-67);
* the historical reshape of `process_data` (lines 69-85);
* the sequential assignment structure of `fetch_data` (lines 30-55) and
  `load_data` (lines 87-101), with each network request / file read modelled
  as an `Option` payload (`none` = request exception / missing file);
* the report text construction of `generate_report` (lines 192-241); and
* the guard and panel structure of `visualize_data` (lines 103-190).

Modelling conventions.  Python dicts preserve insertion order, so JSON
objects are association lists.  Python exceptions are `Except String`
errors carrying the exception class name.  Machine floats produced by
`deaths / cases * 100` are modelled as exact rationals; every numeric
instance proved about below is exactly representable, where the two agree.
numpy float division by zero (which yields `inf`/`nan` plus a warning, not
an exception) is modelled as `none`.  pandas sorts a column descending by
computing a stable ascending argsort and reversing it (`nargsort`); numpy's
default sort is insertion sort below 16 elements, so for the small lists
used here the embedding `(insertionSort ≤).reverse` is exact.
-/

namespace Covid

/-- One element of the countries JSON array (one row of the pandas frame).
The upstream API always supplies `country`, `cases` and `deaths`; the
`recovered` and `active` columns may be absent, which the code probes for
(`'recovered' in row`, `'recovered' in self.top_countries.columns`). -/
structure CountryRecord where
  country : String
  cases : Nat
  deaths : Nat
  recovered : Option Nat
  active : Option Nat
deriving DecidableEq

/-- Comparison key used by `df.sort_values('cases', ...)`. -/
def casesLe (a b : CountryRecord) : Prop := a.cases ≤ b.cases

instance : DecidableRel casesLe := fun a b => Nat.decLe a.cases b.cases

instance : IsTotal CountryRecord casesLe := ⟨fun a b => Nat.le_total a.cases b.cases⟩

instance : IsTrans CountryRecord casesLe := ⟨fun _ _ _ h1 h2 => Nat.le_trans h1 h2⟩

/-- Embedding of `df.sort_values('cases', ascending=False)` (line 66).
pandas' `nargsort` argsorts the column ascending and reverses the indexer
for a descending sort; numpy's sort is insertion sort (stable) for arrays
shorter than 16 elements, which covers every concrete list in this file. -/
def sortValuesCasesDesc (rows : List CountryRecord) : List CountryRecord :=
  (List.insertionSort casesLe rows).reverse

/-- The processed top-countries table.  `rows` is the data;
`hasRecovered` / `hasActive` record whether the pandas frame has the
corresponding column (a column exists iff some input dict has the key,
and `head(10)` keeps all columns of the full frame). -/
structure CountriesTable where
  rows : List CountryRecord
  hasRecovered : Bool
  hasActive : Bool
deriving DecidableEq

/-- Embedding of the countries half of `process_data` (lines 62-67):
`pd.DataFrame(countries)` followed by
`df.sort_values('cases', ascending=False).head(10)`.  A frame built from
an empty list has no columns, so `sort_values('cases')` raises `KeyError`
there; otherwise the result is the first 10 rows of the descending sort. -/
def process_countries (countries : List CountryRecord) : Except String CountriesTable :=
  if countries.isEmpty then .error "KeyError"
  else .ok
    { rows := (sortValuesCasesDesc countries).take 10
      hasRecovered := countries.any fun r => r.recovered.isSome
      hasActive := countries.any fun r => r.active.isSome }

/-- Tied pair used to exhibit the tie-breaking order of the descending sort. -/
def rA : CountryRecord := ⟨"A", 5, 0, none, none⟩

/-- Second element of the tied pair; same `cases` value as `rA`. -/
def rB : CountryRecord := ⟨"B", 5, 1, none, none⟩

/-- Split a reversed digit list into groups of three, mirroring where the
thousands separators of Python's "," format spec fall. -/
def chunk3 : List Char → List (List Char)
  | [] => []
  | a :: b :: c :: rest => [a, b, c] :: chunk3 rest
  | l => [l]

/-- Python format spec "{n:,}" on a nonnegative int: decimal digits with a
comma every three counted from the right. -/
def fmtCommaNat (n : Nat) : String :=
  String.mk (List.intercalate [',']
    (((chunk3 (Nat.repr n).toList.reverse).map List.reverse).reverse))

/-- Python format "{s:>w}": pad with spaces on the left to width `w`. -/
def padLeft (s : String) (w : Nat) : String :=
  String.mk (List.replicate (w - s.length) ' ') ++ s

/-- Python format "{s:<w}": pad with spaces on the right to width `w`. -/
def padRight (s : String) (w : Nat) : String :=
  s ++ String.mk (List.replicate (w - s.length) ' ')

/-- Python string repetition `s * n`. -/
def strRepeat (s : String) (n : Nat) : String := String.join (List.replicate n s)

/-- Python format "{x:.df}" applied to the nonnegative quotient `num/den`:
fixed point with `d` decimal digits, rounding half to even (the rounding
float formatting performs).  The program formats rates computed by float
division of two counters; this formats the exact quotient instead, which
coincides with the float result whenever that float is exact — as it is at
every numeric instance proved in this file. -/
def fmtFixRatio (d num den : Nat) : String :=
  let scaled := num * 10 ^ d
  let q := scaled / den
  let r := scaled % den
  let m :=
    if 2 * r < den then q
    else if den < 2 * r then q + 1
    else if q % 2 = 0 then q else q + 1
  let fpStr := Nat.repr (m % 10 ^ d)
  Nat.repr (m / 10 ^ d) ++ "." ++
    String.mk (List.replicate (d - fpStr.length) '0') ++ fpStr

/-- Global summary JSON record (lines 205-215 index `cases`, `deaths`,
`recovered` and `active` directly; `critical`, `todayCases` and
`todayDeaths` are read with `.get(key, 'N/A')` and so may be absent). -/
structure GlobalData where
  cases : Nat
  deaths : Nat
  recovered : Nat
  active : Nat
  critical : Option Nat
  todayCases : Option Nat
  todayDeaths : Option Nat
deriving DecidableEq

/-- Python `dict.get(key, 'N/A')`: the stored int when the key is present,
otherwise the string `'N/A'`. -/
def getOrNA (o : Option Nat) : Sum Nat String :=
  match o with
  | some n => .inl n
  | none => .inr "N/A"

/-- Applying the "," format spec to the result of `getOrNA`: valid on an
int; on a str it raises `ValueError` ("Cannot specify ',' with 's'"). -/
def fmtCommaDynamic : Sum Nat String → Except String String
  | .inl n => .ok (fmtCommaNat n)
  | .inr _ => .error "ValueError"

/-- Raw historical JSON payload: each metric maps date strings to cumulative
counts, modelled as an association list in dict insertion order (Python
dicts and `json.load` preserve order).  A missing key is `none`.  Lines
72-73 index `cases` and `deaths` directly (raising `KeyError` when absent);
line 74 reads `recovered` with `.get('recovered', {})`. -/
structure HistoricalPayload where
  cases : Option (List (String × Nat))
  deaths : Option (List (String × Nat))
  recovered : Option (List (String × Nat))
deriving DecidableEq

/-- The per-metric frames created by the historical half of `process_data`
(`pd.DataFrame.from_dict(..., orient='index')` keeps the dict's key order,
so each frame is the same association list).  `recovered_df` is set only
when the recovered mapping is present and nonempty (line 80 tests the dict
for truthiness, and an empty dict is falsy). -/
structure ProcessedHistorical where
  cases_df : List (String × Nat)
  deaths_df : List (String × Nat)
  recovered_df : Option (List (String × Nat))
deriving DecidableEq

/-- Embedding of the historical half of `process_data` (lines 70-85). -/
def processHistorical (h : HistoricalPayload) : Except String ProcessedHistorical :=
  match h.cases with
  | none => .error "KeyError"
  | some cs =>
    match h.deaths with
    | none => .error "KeyError"
    | some ds =>
      let recov := h.recovered.getD []
      .ok { cases_df := cs, deaths_df := ds
            recovered_df := if recov.isEmpty then none else some recov }

/-- In-memory session state of `CovidDashboard` (fields initialised to
`None` in `__init__`, lines 24-28; `processed` stands for the `cases_df` /
`deaths_df` / `recovered_df` attributes that exist only after a processing
run with historical data, probed by `hasattr(self, 'cases_df')`). -/
structure DashboardState where
  global_data : Option GlobalData
  countries_data : Option (List CountryRecord)
  historical_data : Option HistoricalPayload
  top_countries : Option CountriesTable
  processed : Option ProcessedHistorical
deriving DecidableEq

/-- Fresh session state: all fields `None`. -/
def initState : DashboardState := ⟨none, none, none, none, none⟩

/-- Embedding of `fetch_data` (lines 30-55).  The three HTTP GET + decode
steps run sequentially and each assigns its field before the next request
is issued; an argument is `some` payload on success and `none` on a network
or decode failure, which raises and aborts the remaining steps.  The result
is the state after the method together with the propagated exception, if
any.  File writes are outside the model. -/
def fetch_data (s : DashboardState) (r1 : Option GlobalData)
    (r2 : Option (List CountryRecord)) (r3 : Option HistoricalPayload) :
    DashboardState × Option String :=
  match r1 with
  | none => (s, some "RequestException")
  | some g =>
    let s1 := { s with global_data := some g }
    match r2 with
    | none => (s1, some "RequestException")
    | some cs =>
      let s2 := { s1 with countries_data := some cs }
      match r3 with
      | none => (s2, some "RequestException")
      | some h => ({ s2 with historical_data := some h }, none)

/-- Message printed by `load_data` when a snapshot file is missing. -/
def notFoundMsg : String := "Local data not found. Please fetch data first."

/-- Message printed by `load_data` on success. -/
def loadedMsg : String := "Data loaded from local files"

/-- Embedding of `load_data` (lines 87-101).  The three JSON files are
opened sequentially inside one try block; each assigns its field before the
next open; a missing file (`none`) raises `FileNotFoundError`, which the
except clause turns into the not-found message, keeping whatever was
already assigned. -/
def load_data (s : DashboardState) (f1 : Option GlobalData)
    (f2 : Option (List CountryRecord)) (f3 : Option HistoricalPayload) :
    DashboardState × String :=
  match f1 with
  | none => (s, notFoundMsg)
  | some g =>
    let s1 := { s with global_data := some g }
    match f2 with
    | none => (s1, notFoundMsg)
    | some cs =>
      let s2 := { s1 with countries_data := some cs }
      match f3 with
      | none => (s2, notFoundMsg)
      | some h => ({ s2 with historical_data := some h }, loadedMsg)

/-- Result of `generate_report`: either the early-return guard path (line
194-196 prints "No data available..." and returns None) or the report
text. -/
inductive ReportResult
  | noData
  | report (text : String)
deriving DecidableEq

/-- Recovery-rate column entry for one row of the report loop (lines
228-232).  `'recovered' in row` tests the row's index, which is the frame's
column set, so it is decided by the `hasRecovered` column flag.  When the
column exists but this row's value is missing, pandas stores NaN and numpy
produces `nan` from `NaN / cases * 100` (formatted "nan"); with a value
present and `cases = 0`, numpy integer division by zero yields `inf` (or
`nan` for 0/0) with a warning, not an exception. -/
def recoveryStr (hasRecovered : Bool) (r : CountryRecord) : String :=
  if hasRecovered then
    match r.recovered with
    | some v =>
      if r.cases = 0 then (if v = 0 then "nan%" else "inf%")
      else fmtFixRatio 1 (v * 100) r.cases ++ "%"
    | none => "nan%"
  else "N/A"

/-- One row of the report's country table (line 234). -/
def formatCountryRow (hasRecovered : Bool) (r : CountryRecord) : String :=
  padRight r.country 15 ++ " " ++ padLeft (fmtCommaNat r.cases) 12 ++ " " ++
    padLeft (fmtCommaNat r.deaths) 10 ++ " " ++
    padLeft (recoveryStr hasRecovered r) 15 ++ "\n"

/-- Embedding of `generate_report` (lines 192-241).  `now` is the formatted
`datetime.now()` timestamp.  Evaluation follows source order: the guard on
`global_data`, the global totals, the three `.get(..., 'N/A')` fields
formatted with "," (a `ValueError` when absent), the two global rates
(`ZeroDivisionError` when `cases = 0`), then the country rows through
`self.top_countries.iterrows()` (an `AttributeError` when `top_countries`
is still None).  The file write is outside the model. -/
def generate_report (s : DashboardState) (now : String) : Except String ReportResult :=
  match s.global_data with
  | none => .ok .noData
  | some g =>
    let head := "COVID-19 PANDEMIC SUMMARY REPORT\n" ++ strRepeat "=" 30 ++ "\n\n" ++
      "Report generated on: " ++ now ++ "\n\n" ++
      "GLOBAL STATISTICS\n" ++ strRepeat "-" 20 ++ "\n" ++
      "Total Cases: " ++ fmtCommaNat g.cases ++ "\n" ++
      "Total Deaths: " ++ fmtCommaNat g.deaths ++ "\n" ++
      "Total Recovered: " ++ fmtCommaNat g.recovered ++ "\n" ++
      "Active Cases: " ++ fmtCommaNat g.active ++ "\n"
    match fmtCommaDynamic (getOrNA g.critical) with
    | .error e => .error e
    | .ok critStr =>
      match fmtCommaDynamic (getOrNA g.todayCases) with
      | .error e => .error e
      | .ok tcStr =>
        match fmtCommaDynamic (getOrNA g.todayDeaths) with
        | .error e => .error e
        | .ok tdStr =>
          if g.cases = 0 then .error "ZeroDivisionError"
          else
            let mid := "Critical Cases: " ++ critStr ++ "\n" ++
              "Cases Today: " ++ tcStr ++ "\n" ++
              "Deaths Today: " ++ tdStr ++ "\n\n" ++
              "Global Death Rate: " ++ fmtFixRatio 2 (g.deaths * 100) g.cases ++ "%\n" ++
              "Global Recovery Rate: " ++
                fmtFixRatio 2 (g.recovered * 100) g.cases ++ "%\n\n" ++
              "TOP 10 COUNTRIES BY CASES\n" ++ strRepeat "-" 30 ++ "\n" ++
              padRight "Country" 15 ++ " " ++ padLeft "Cases" 12 ++ " " ++
              padLeft "Deaths" 10 ++ " " ++ padLeft "Recovery Rate" 15 ++ "\n"
            match s.top_countries with
            | none => .error "AttributeError"
            | some tbl =>
              .ok (.report (head ++ mid ++
                String.join (tbl.rows.map (formatCountryRow tbl.hasRecovered))))

/-- Result of `visualize_data`: the guard path, or a rendered figure
described by the data the claims are about — panel (c)'s bubble sizes and
whether panels (d), (e), (f) were drawn. -/
inductive VizResult
  | noData
  | rendered (bubbleSizes : List (Option ℚ)) (panelD panelE panelF : Bool)
deriving DecidableEq

/-- Bubble size of one point of panel (c) (line 135, `s=cases/deaths*10`):
numpy float division with no guard; `deaths = 0` yields `inf` (or `nan`)
with a RuntimeWarning, modelled as `none`. -/
def bubbleSize (r : CountryRecord) : Option ℚ :=
  if r.deaths = 0 then none
  else some ((r.cases : ℚ) / (r.deaths : ℚ) * 10)

/-- Embedding of `visualize_data` (lines 103-190).  The guard (lines
105-107) checks `countries_data` and `global_data` only; line 125 then
subscripts `self.top_countries`, a `TypeError` when it is still None.
Panel (d) is drawn iff the `cases_df` attribute exists (line 144), panel
(e) iff the frame has a `recovered` column (line 157), panel (f) iff it has
both `recovered` and `active` columns (line 167). -/
def visualize_data (s : DashboardState) : Except String VizResult :=
  match s.countries_data, s.global_data with
  | none, _ => .ok .noData
  | _, none => .ok .noData
  | some _, some _ =>
    match s.top_countries with
    | none => .error "TypeError"
    | some tbl =>
      .ok (.rendered (tbl.rows.map bubbleSize) s.processed.isSome
        tbl.hasRecovered (tbl.hasRecovered && tbl.hasActive))

/-- True exactly when the computation raised (propagated an exception). -/
def isError : Except String α → Bool
  | .error _ => true
  | .ok _ => false

/-- Global summary used for the cases=100, deaths=5 rate check. -/
def g100 : GlobalData := ⟨100, 5, 40, 55, some 1, some 2, some 3⟩

/-- Global summary with zero cases: the division-by-zero input. -/
def g0 : GlobalData := ⟨0, 5, 0, 0, some 1, some 2, some 3⟩

/-- Global summary of the report-formatting check (C7). -/
def g1000 : GlobalData := ⟨1000, 50, 900, 50, some 5, some 17, some 1⟩

/-- Global summary with the optional `critical` key absent. -/
def gNoCrit : GlobalData := ⟨100, 5, 40, 55, none, some 2, some 3⟩

/-- An empty processed table (rows exhausted, no optional columns). -/
def emptyTable : CountriesTable := ⟨[], false, false⟩

/-- Session state holding `g100` with an already-processed empty table. -/
def st100 : DashboardState := ⟨some g100, some [rA], none, some emptyTable, none⟩

/-- Session state from a previous successful fetch cycle: prior in-memory
global summary `g100`, nothing else. -/
def stPrior : DashboardState := ⟨some g100, none, none, none, none⟩

/-- Session state holding the zero-cases summary. -/
def st0 : DashboardState := ⟨some g0, some [rA], none, some emptyTable, none⟩

/-- Session state for the report-formatting check. -/
def st1000 : DashboardState := ⟨some g1000, some [rA], none, some emptyTable, none⟩

/-- Session state whose global summary lacks `critical`. -/
def stNoCrit : DashboardState := ⟨some gNoCrit, some [rA], none, some emptyTable, none⟩

/-- A top-country row with zero deaths (panel (c) divide-by-zero input). -/
def rZeroDeaths : CountryRecord := ⟨"Z", 100, 0, none, none⟩

/-- Session state whose processed table holds the zero-deaths row. -/
def stC8 : DashboardState :=
  ⟨some g1000, some [rZeroDeaths], none, some ⟨[rZeroDeaths], false, false⟩, none⟩

/-- Session state after a successful load but before any process step:
raw data present, `top_countries` still None. -/
def stLoaded : DashboardState :=
  ⟨some g1000, some [rA, rB], some ⟨some [("1/1/21", 10)], some [("1/1/21", 1)], none⟩,
    none, none⟩

/-- Session state whose countries lack the `recovered` column entirely. -/
def stC5 : DashboardState :=
  ⟨some g1000, some [rA, rB], none, some ⟨[rB, rA], false, false⟩, none⟩

end Covid

namespace Covid

/-- Stability of `orderedInsert` for the cases key, in filter form: inserting
`a` commutes with filtering on any cases value, because every element passed
over by the insertion has a strictly larger cases count than `a`. -/
theorem filter_orderedInsert_cases (c : Nat) (a : CountryRecord) :
    ∀ l : List CountryRecord,
      (List.orderedInsert casesLe a l).filter (fun r => r.cases == c) =
        if a.cases = c then a :: l.filter (fun r => r.cases == c)
        else l.filter (fun r => r.cases == c)
  | [] => by
    by_cases hac : a.cases = c <;> simp [List.orderedInsert, hac]
  | b :: t => by
    by_cases hab : casesLe a b
    · by_cases hac : a.cases = c <;>
        simp [List.orderedInsert, hab, List.filter_cons, hac]
    · have hba : b.cases < a.cases := Nat.lt_of_not_le hab
      by_cases hac : a.cases = c
      · have hbc : ¬ b.cases = c := by omega
        simp [List.orderedInsert, hab, List.filter_cons, hbc, hac,
          filter_orderedInsert_cases c a t]
      · by_cases hbc : b.cases = c <;>
          simp [List.orderedInsert, hab, List.filter_cons, hbc, hac,
            filter_orderedInsert_cases c a t]

/-- Stability of the ascending insertion sort in filter form: sorting does not
reorder the rows holding any fixed cases value. -/
theorem filter_insertionSort_cases (c : Nat) :
    ∀ l : List CountryRecord,
      (List.insertionSort casesLe l).filter (fun r => r.cases == c) =
        l.filter (fun r => r.cases == c)
  | [] => rfl
  | a :: t => by
    rw [List.insertionSort, filter_orderedInsert_cases c a (List.insertionSort casesLe t),
      filter_insertionSort_cases c t]
    by_cases hac : a.cases = c <;> simp [List.filter_cons, hac]

/-- C1 counterexample: the claim asserts ties in `cases` are broken by
original input order (a stable descending sort).  The code sorts with
`sort_values('cases', ascending=False)`, which reverses a stable ascending
argsort, so the two tied rows `rA, rB` come out as `[rB, rA]` — reverse
input order — and the table also records that no optional column exists. -/
theorem C1_ties_counterexample :
    rA.cases = rB.cases ∧ rA ≠ rB ∧
    process_countries [rA, rB] = .ok ⟨[rB, rA], false, false⟩ := by
  refine ⟨rfl, by decide, rfl⟩

/-- C1 (amended): for every nonempty country collection the derived table is
the first 10 rows of the descending-by-cases sort: it has length
`min(10, N)`, is sorted descending by `cases`, and is a subset of the input
rows; but ties in `cases` appear in reverse original input order (the
filter clause: restricting the sorted list to any fixed cases value gives
the reverse of the input's rows with that value).  On an empty collection
the code raises `KeyError` instead. -/
theorem C1_top10_amended (countries : List CountryRecord) (c : Nat)
    (hne : countries ≠ []) :
    process_countries countries = .ok
      ⟨(sortValuesCasesDesc countries).take 10,
       countries.any fun r => r.recovered.isSome,
       countries.any fun r => r.active.isSome⟩ ∧
    ((sortValuesCasesDesc countries).take 10).length = min 10 countries.length ∧
    ((sortValuesCasesDesc countries).take 10).Pairwise (fun a b => b.cases ≤ a.cases) ∧
    (∀ r, r ∈ (sortValuesCasesDesc countries).take 10 → r ∈ countries) ∧
    (sortValuesCasesDesc countries).filter (fun r => r.cases == c) =
      (countries.filter fun r => r.cases == c).reverse := by
  refine ⟨?_, ?_, ?_, ?_, ?_⟩
  · have h0 : countries.isEmpty = false := by
      cases countries with
      | nil => exact absurd rfl hne
      | cons a t => rfl
    simp [process_countries, h0]
  · rw [List.length_take, sortValuesCasesDesc, List.length_reverse,
      List.length_insertionSort]
  · have hrev : (sortValuesCasesDesc countries).Pairwise
        (fun a b => b.cases ≤ a.cases) := by
      rw [sortValuesCasesDesc, List.pairwise_reverse]
      exact List.sorted_insertionSort casesLe countries
    exact List.Pairwise.sublist (List.take_sublist ..) hrev
  · intro r hr
    have h1 : r ∈ sortValuesCasesDesc countries := List.mem_of_mem_take hr
    rw [sortValuesCasesDesc, List.mem_reverse, List.mem_insertionSort] at h1
    exact h1
  · rw [sortValuesCasesDesc, List.filter_reverse, filter_insertionSort_cases]

/-- Witness for C1_top10_amended: the tied pair, cases value 5. -/
theorem C1_top10_amended_witness :
    process_countries [rA, rB] = .ok ⟨[rB, rA], false, false⟩ ∧
    (sortValuesCasesDesc [rA, rB]).filter (fun r => r.cases == 5) =
      ([rA, rB].filter fun r => r.cases == 5).reverse := by
  have h := C1_top10_amended [rA, rB] 5 (by simp)
  exact ⟨h.1.trans (by rfl), h.2.2.2.2⟩

/-- C2: with global cases = 100 and deaths = 5 the report does print a death
rate of 5.00%; but with cases = 0 the unguarded `deaths / cases * 100` at
line 214 raises `ZeroDivisionError` — the claimed "N/A" path does not exist
in the code. -/
theorem C2_rate_divzero_behaviour :
    (∃ a b, generate_report st100 "T" = .ok (.report (a ++ "5.00%" ++ b))) ∧
    generate_report st0 "T" = .error "ZeroDivisionError" := by
  constructor
  · exact ⟨"COVID-19 PANDEMIC SUMMARY REPORT\n==============================\n\nReport generated on: T\n\nGLOBAL STATISTICS\n--------------------\nTotal Cases: 100\nTotal Deaths: 5\nTotal Recovered: 40\nActive Cases: 55\nCritical Cases: 1\nCases Today: 2\nDeaths Today: 3\n\nGlobal Death Rate: ",
      "\nGlobal Recovery Rate: 40.00%\n\nTOP 10 COUNTRIES BY CASES\n------------------------------\nCountry                Cases     Deaths   Recovery Rate\n",
      by rfl⟩
  · rfl

/-- C3 counterexample: the first request succeeds and the second fails; the
error propagates, but `self.global_data` was already overwritten at line 34
before the second request was issued, so prior in-memory state is not left
unchanged. -/
theorem C3_fetch_counterexample :
    (fetch_data stPrior (some g1000) none none).2 = some "RequestException" ∧
    (fetch_data stPrior (some g1000) none none).1.global_data ≠ some g100 ∧
    stPrior.global_data = some g100 := by
  refine ⟨rfl, by decide, rfl⟩

/-- C3 (amended): a network or decode failure propagates as a fatal error,
and a failure in the first request leaves all state unchanged; but a
failure in a later request leaves the fields assigned by the requests that
already completed overwritten (global summary after a second-request
failure; global summary and country list after a third-request failure). -/
theorem C3_fetch_amended (s : DashboardState) (g : GlobalData)
    (cs : List CountryRecord) (h : HistoricalPayload)
    (r2 : Option (List CountryRecord)) (r3 : Option HistoricalPayload) :
    fetch_data s none r2 r3 = (s, some "RequestException") ∧
    fetch_data s (some g) none r3 =
      ({ s with global_data := some g }, some "RequestException") ∧
    fetch_data s (some g) (some cs) none =
      ({ s with global_data := some g, countries_data := some cs },
        some "RequestException") ∧
    fetch_data s (some g) (some cs) (some h) =
      ({ s with
          global_data := some g
          countries_data := some cs
          historical_data := some h }, none) :=
  ⟨rfl, rfl, rfl, rfl⟩

/-- C4 counterexample: on a fresh session with the first snapshot file
present and the second missing, `load_data` reports not-found but has
already adopted the global summary read from the first file — partial state
is adopted. -/
theorem C4_load_counterexample :
    load_data initState (some g100) none none =
      ({ initState with global_data := some g100 }, notFoundMsg) ∧
    ({ initState with global_data := some g100 } : DashboardState) ≠ initState := by
  refine ⟨rfl, by decide⟩

/-- C4 (amended): a missing snapshot file makes `load_data` report the
not-found condition; when the first file is missing (in particular on an
empty data directory) no state is adopted, but when a later file is missing
the fields read from the earlier files have already been adopted. -/
theorem C4_load_amended (s : DashboardState) (g : GlobalData)
    (cs : List CountryRecord) (h : HistoricalPayload)
    (f2 : Option (List CountryRecord)) (f3 : Option HistoricalPayload) :
    load_data s none f2 f3 = (s, notFoundMsg) ∧
    load_data s (some g) none f3 =
      ({ s with global_data := some g }, notFoundMsg) ∧
    load_data s (some g) (some cs) none =
      ({ s with global_data := some g, countries_data := some cs }, notFoundMsg) ∧
    load_data s (some g) (some cs) (some h) =
      ({ s with
          global_data := some g
          countries_data := some cs
          historical_data := some h }, loadedMsg) :=
  ⟨rfl, rfl, rfl, rfl⟩

/-- C5: a historical payload without a `recovered` key is processed without
raising (the code reads it with `.get('recovered', {})`) and yields no
recovered frame; in the report a row of a table without the recovered
column gets the literal "N/A"; and visualization succeeds with panels (e)
and (f) skipped (both flags false), not an exception. -/
theorem C5_missing_recovered (cs ds : List (String × Nat)) (r : CountryRecord)
    (s : DashboardState) (tbl : CountriesTable)
    (hg : s.global_data.isSome = true) (hc : s.countries_data.isSome = true)
    (ht : s.top_countries = some tbl) (hrec : tbl.hasRecovered = false) :
    processHistorical ⟨some cs, some ds, none⟩ = .ok ⟨cs, ds, none⟩ ∧
    recoveryStr tbl.hasRecovered r = "N/A" ∧
    visualize_data s =
      .ok (.rendered (tbl.rows.map bubbleSize) s.processed.isSome false false) := by
  obtain ⟨g, hgd⟩ := Option.isSome_iff_exists.mp hg
  obtain ⟨c, hcd⟩ := Option.isSome_iff_exists.mp hc
  refine ⟨rfl, by rw [hrec]; rfl, ?_⟩
  simp [visualize_data, hgd, hcd, ht, hrec]

/-- Witness for C5_missing_recovered at a concrete payload and session. -/
theorem C5_missing_recovered_witness :
    processHistorical ⟨some [("1/1/21", 10)], some [("1/1/21", 1)], none⟩ =
      .ok ⟨[("1/1/21", 10)], [("1/1/21", 1)], none⟩ ∧
    recoveryStr (⟨[rB, rA], false, false⟩ : CountriesTable).hasRecovered rA = "N/A" ∧
    visualize_data stC5 =
      .ok (.rendered ((⟨[rB, rA], false, false⟩ : CountriesTable).rows.map bubbleSize)
        stC5.processed.isSome false false) :=
  C5_missing_recovered [("1/1/21", 10)] [("1/1/21", 1)] rA stC5
    ⟨[rB, rA], false, false⟩ rfl rfl rfl rfl

/-- C6: the historical reshape is an order-preserving round-trip — for every
input mapping the per-metric frame is exactly the input's (date, count)
pairs in upstream order, and the synthetic two-day series comes back as its
own two rows in order. -/
theorem C6_reshape_roundtrip (cs ds : List (String × Nat))
    (rv : Option (List (String × Nat))) :
    processHistorical ⟨some cs, some ds, rv⟩ = .ok
      ⟨cs, ds, if (rv.getD []).isEmpty then none else some (rv.getD [])⟩ ∧
    processHistorical ⟨some [("1/1/21", 10), ("1/2/21", 12)],
        some [("1/1/21", 1), ("1/2/21", 2)], none⟩ =
      .ok ⟨[("1/1/21", 10), ("1/2/21", 12)], [("1/1/21", 1), ("1/2/21", 2)], none⟩ :=
  ⟨rfl, rfl⟩

/-- C7: with global cases = 1000, deaths = 50, recovered = 900, the report
text contains "5.00%" and "90.00%" verbatim (the two rates formatted to two
decimals). -/
theorem C7_report_rates :
    ∃ rep, generate_report st1000 "T" = .ok (.report rep) ∧
      (∃ a b, rep = a ++ "5.00%" ++ b) ∧ (∃ a b, rep = a ++ "90.00%" ++ b) := by
  refine ⟨"COVID-19 PANDEMIC SUMMARY REPORT\n==============================\n\nReport generated on: T\n\nGLOBAL STATISTICS\n--------------------\nTotal Cases: 1,000\nTotal Deaths: 50\nTotal Recovered: 900\nActive Cases: 50\nCritical Cases: 5\nCases Today: 17\nDeaths Today: 1\n\nGlobal Death Rate: 5.00%\nGlobal Recovery Rate: 90.00%\n\nTOP 10 COUNTRIES BY CASES\n------------------------------\nCountry                Cases     Deaths   Recovery Rate\n",
    by rfl, ⟨?_, ?_, ?_⟩, ⟨?_, ?_, ?_⟩⟩
  · exact "COVID-19 PANDEMIC SUMMARY REPORT\n==============================\n\nReport generated on: T\n\nGLOBAL STATISTICS\n--------------------\nTotal Cases: 1,000\nTotal Deaths: 50\nTotal Recovered: 900\nActive Cases: 50\nCritical Cases: 5\nCases Today: 17\nDeaths Today: 1\n\nGlobal Death Rate: "
  · exact "\nGlobal Recovery Rate: 90.00%\n\nTOP 10 COUNTRIES BY CASES\n------------------------------\nCountry                Cases     Deaths   Recovery Rate\n"
  · rfl
  · exact "COVID-19 PANDEMIC SUMMARY REPORT\n==============================\n\nReport generated on: T\n\nGLOBAL STATISTICS\n--------------------\nTotal Cases: 1,000\nTotal Deaths: 50\nTotal Recovered: 900\nActive Cases: 50\nCritical Cases: 5\nCases Today: 17\nDeaths Today: 1\n\nGlobal Death Rate: 5.00%\nGlobal Recovery Rate: "
  · exact "\n\nTOP 10 COUNTRIES BY CASES\n------------------------------\nCountry                Cases     Deaths   Recovery Rate\n"
  · rfl

/-- C8: the scatter panel's bubble sizes are computed by `cases/deaths*10`
with no guard; for a top-country row with deaths = 0 the division by zero
is evaluated and yields the numpy infinity artifact (modelled `none`)
rather than being guarded away. -/
theorem C8_scatter_divzero :
    rZeroDeaths.deaths = 0 ∧ bubbleSize rZeroDeaths = none ∧
    visualize_data stC8 = .ok (.rendered [none] false false false) :=
  ⟨rfl, rfl, rfl⟩

/-- C9: when the global summary lacks `critical`, `todayCases` or
`todayDeaths`, the `.get(key, 'N/A')` fallback string reaches the ","
format spec, which is invalid for strings, so report generation raises
`ValueError` instead of printing "N/A". -/
theorem C9_missing_optionals_raise (s : DashboardState) (g : GlobalData)
    (now : String) (hg : s.global_data = some g)
    (h : g.critical = none ∨ g.todayCases = none ∨ g.todayDeaths = none) :
    generate_report s now = .error "ValueError" := by
  rcases h with h | h | h
  · simp [generate_report, hg, h, getOrNA, fmtCommaDynamic]
  · cases hcr : g.critical <;>
      simp [generate_report, hg, h, hcr, getOrNA, fmtCommaDynamic]
  · cases hcr : g.critical <;> cases htc : g.todayCases <;>
      simp [generate_report, hg, h, hcr, htc, getOrNA, fmtCommaDynamic]

/-- Witness for C9_missing_optionals_raise: a summary missing `critical`. -/
theorem C9_missing_optionals_raise_witness :
    generate_report stNoCrit "T" = .error "ValueError" :=
  C9_missing_optionals_raise stNoCrit gNoCrit "T" rfl (Or.inl rfl)

/-- C10: the "no data available" guards only test the raw fetched/loaded
data; with raw data present but the process step not yet run
(`top_countries` still None), report generation and visualization both
raise (AttributeError / ValueError / ZeroDivisionError on the report path,
TypeError on the visualization path) instead of printing the guard
message. -/
theorem C10_stale_guard (s : DashboardState) (now : String)
    (hg : s.global_data.isSome = true) (hc : s.countries_data.isSome = true)
    (ht : s.top_countries = none) :
    isError (generate_report s now) = true ∧ isError (visualize_data s) = true := by
  obtain ⟨g, hgd⟩ := Option.isSome_iff_exists.mp hg
  obtain ⟨c, hcd⟩ := Option.isSome_iff_exists.mp hc
  constructor
  · cases hcr : g.critical with
    | none => simp [generate_report, hgd, hcr, getOrNA, fmtCommaDynamic, isError]
    | some v1 =>
      cases htc : g.todayCases with
      | none =>
        simp [generate_report, hgd, hcr, htc, getOrNA, fmtCommaDynamic, isError]
      | some v2 =>
        cases htd : g.todayDeaths with
        | none =>
          simp [generate_report, hgd, hcr, htc, htd, getOrNA, fmtCommaDynamic,
            isError]
        | some v3 =>
          by_cases hz : g.cases = 0 <;>
            simp [generate_report, hgd, hcr, htc, htd, ht, hz, getOrNA,
              fmtCommaDynamic, isError]
  · simp [visualize_data, hgd, hcd, ht, isError]

/-- Witness for C10_stale_guard: the loaded-but-unprocessed session. -/
theorem C10_stale_guard_witness :
    isError (generate_report stLoaded "T") = true ∧
    isError (visualize_data stLoaded) = true :=
  C10_stale_guard stLoaded "T" rfl rfl rfl

end Covid
